import Mathlib

/-! The QTextToSpeech façade (src/tts/qtexttospeech.cpp)

`QTextToSpeech` is the public class of the Qt Speech module. Every public
method fetches the private implementation object (`Q_D`) and calls the method
of the same name on it; `setVolume` first bounds its argument to `0 .. 100`.

The private implementation `QTextToSpeechPrivate` is an abstract class: this
file holds its constructor only, the methods are implemented per platform.
The embedding therefore takes the private methods as a table of functions
over the state `σ` of the private object, and a façade method is a function
of that table and of the façade object.

* `int` is `Int` (the façade performs no arithmetic on it, only comparisons).
* `double` is the rational a finite double denotes (the façade performs no
  operation at all on a double: it passes it on).
* `QString` is `String`; `QLocale` and `QVoice` are type parameters `L`, `V`.
* A `void` method returns the object it leaves behind.
-/

namespace QtSpeech

set_option linter.dupNamespace false

/-- A finite C++ `double`, as the rational number it denotes. -/
abbrev double := ℚ

/-- Qt's `qMin` (QtGlobal): `(a < b) ? a : b`. -/
def qMin (a b : Int) : Int := if a < b then a else b

/-- Qt's `qMax` (QtGlobal): `(a < b) ? b : a`. -/
def qMax (a b : Int) : Int := if a < b then b else a

/-- The enum `QTextToSpeech::State` (documented at lines 74-81). -/
inductive QTextToSpeech.State where
  | Ready
  | Speaking
  | Paused
  | BackendError
  deriving DecidableEq, Repr

/-- The data members of `QTextToSpeechPrivate` that its constructor
initialises: the back pointer `m_speech` (an address) and `m_state`. -/
structure QTextToSpeechPrivate where
  m_speech : Nat
  m_state : QTextToSpeech.State
  deriving DecidableEq, Repr

/-- The constructor `QTextToSpeechPrivate::QTextToSpeechPrivate(QTextToSpeech *speech)`
(lines 51-54): `m_speech(speech), m_state(QTextToSpeech::Ready)`, empty body. -/
def QTextToSpeechPrivate.QTextToSpeechPrivate (speech : Nat) : QTextToSpeechPrivate :=
  { m_speech := speech, m_state := QTextToSpeech.State.Ready }

/-- The methods of the private implementation that the façade calls through
`d->`. They are declared in `qtexttospeech_p.h` and implemented by the platform
back ends; the table is a parameter of every façade method. A `const` method
reads the private object, any other method returns the private object it
leaves behind. -/
structure QTextToSpeechPrivate.VTable (L V σ : Type) where
  state : σ → QTextToSpeech.State
  say : σ → String → σ
  stop : σ → σ
  pause : σ → σ
  resume : σ → σ
  setPitch : σ → double → σ
  pitch : σ → double
  setRate : σ → double → σ
  rate : σ → double
  setVolume : σ → Int → σ
  volume : σ → Int
  setLocale : σ → L → σ
  locale : σ → L
  availableLocales : σ → List L
  setVoice : σ → V → σ
  voice : σ → V
  availableVoices : σ → List V

/-- A `QTextToSpeech` object: it owns its private object, reached by `Q_D`
through `d_ptr`. -/
structure QTextToSpeech (σ : Type) where
  d_ptr : σ
  deriving DecidableEq, Repr

open QTextToSpeechPrivate (VTable)

/-- Lines 90-94: `return d->state();` -/
def QTextToSpeech.state {L V σ : Type} (d : VTable L V σ) (self : QTextToSpeech σ) :
    QTextToSpeech.State :=
  d.state self.d_ptr

/-- Lines 103-107: `d->say(text);` -/
def QTextToSpeech.say {L V σ : Type} (d : VTable L V σ) (self : QTextToSpeech σ)
    (text : String) : QTextToSpeech σ :=
  { d_ptr := d.say self.d_ptr text }

/-- Lines 112-116: `d->stop();` -/
def QTextToSpeech.stop {L V σ : Type} (d : VTable L V σ) (self : QTextToSpeech σ) :
    QTextToSpeech σ :=
  { d_ptr := d.stop self.d_ptr }

/-- Lines 128-132: `d->pause();` -/
def QTextToSpeech.pause {L V σ : Type} (d : VTable L V σ) (self : QTextToSpeech σ) :
    QTextToSpeech σ :=
  { d_ptr := d.pause self.d_ptr }

/-- Lines 138-142: `d->resume();` -/
def QTextToSpeech.resume {L V σ : Type} (d : VTable L V σ) (self : QTextToSpeech σ) :
    QTextToSpeech σ :=
  { d_ptr := d.resume self.d_ptr }

/-- Lines 168-172: `d->setPitch(pitch);` -/
def QTextToSpeech.setPitch {L V σ : Type} (d : VTable L V σ) (self : QTextToSpeech σ)
    (pitch : double) : QTextToSpeech σ :=
  { d_ptr := d.setPitch self.d_ptr pitch }

/-- Lines 174-178: `return d->pitch();` -/
def QTextToSpeech.pitch {L V σ : Type} (d : VTable L V σ) (self : QTextToSpeech σ) :
    double :=
  d.pitch self.d_ptr

/-- Lines 185-189: `d->setRate(rate);` -/
def QTextToSpeech.setRate {L V σ : Type} (d : VTable L V σ) (self : QTextToSpeech σ)
    (rate : double) : QTextToSpeech σ :=
  { d_ptr := d.setRate self.d_ptr rate }

/-- Lines 191-195: `return d->rate();` -/
def QTextToSpeech.rate {L V σ : Type} (d : VTable L V σ) (self : QTextToSpeech σ) :
    double :=
  d.rate self.d_ptr

/-- Lines 203-208: `volume = qMin(qMax(volume, 0), 100); d->setVolume(volume);` -/
def QTextToSpeech.setVolume {L V σ : Type} (d : VTable L V σ) (self : QTextToSpeech σ)
    (volume : Int) : QTextToSpeech σ :=
  let volume := qMin (qMax volume 0) 100
  { d_ptr := d.setVolume self.d_ptr volume }

/-- Lines 210-214: `return d->volume();` -/
def QTextToSpeech.volume {L V σ : Type} (d : VTable L V σ) (self : QTextToSpeech σ) :
    Int :=
  d.volume self.d_ptr

/-- Lines 220-224: `d->setLocale(locale);` -/
def QTextToSpeech.setLocale {L V σ : Type} (d : VTable L V σ) (self : QTextToSpeech σ)
    (locale : L) : QTextToSpeech σ :=
  { d_ptr := d.setLocale self.d_ptr locale }

/-- Lines 231-235: `return d->locale();` -/
def QTextToSpeech.locale {L V σ : Type} (d : VTable L V σ) (self : QTextToSpeech σ) : L :=
  d.locale self.d_ptr

/-- Lines 241-245: `return d->availableLocales();` -/
def QTextToSpeech.availableLocales {L V σ : Type} (d : VTable L V σ)
    (self : QTextToSpeech σ) : List L :=
  d.availableLocales self.d_ptr

/-- Lines 254-258: `d->setVoice(voice);` -/
def QTextToSpeech.setVoice {L V σ : Type} (d : VTable L V σ) (self : QTextToSpeech σ)
    (voice : V) : QTextToSpeech σ :=
  { d_ptr := d.setVoice self.d_ptr voice }

/-- Lines 264-268: `return d->voice();` -/
def QTextToSpeech.voice {L V σ : Type} (d : VTable L V σ) (self : QTextToSpeech σ) : V :=
  d.voice self.d_ptr

/-- Lines 274-278: `return d->availableVoices();` -/
def QTextToSpeech.availableVoices {L V σ : Type} (d : VTable L V σ)
    (self : QTextToSpeech σ) : List V :=
  d.availableVoices self.d_ptr

/-! ## A private implementation that records what it is handed

The value a façade method hands to the private implementation is observed on
this implementation: each setter stores its argument, each call is appended
to a log together with its argument. -/

/-- One call received by the private implementation, with its argument. -/
inductive PrivateCall (L V : Type) where
  | say (text : String)
  | stop
  | pause
  | resume
  | setPitch (pitch : double)
  | setRate (rate : double)
  | setVolume (volume : Int)
  | setLocale (locale : L)
  | setVoice (voice : V)
  deriving DecidableEq, Repr

/-- The state of the recording private implementation: the log of the calls
received so far (oldest first) and the values last stored. -/
structure Recorded (L V : Type) extends QTextToSpeechPrivate where
  calls : List (PrivateCall L V)
  m_pitch : double
  m_rate : double
  m_volume : Int
  m_locale : L
  m_voice : V
  deriving DecidableEq, Repr

/-- The recording private implementation: a getter returns the stored member,
a setter stores its argument as handed and logs the call, a control call is
logged. -/
def recordingPrivate (L V : Type) : VTable L V (Recorded L V) where
  state s := s.m_state
  say s text := { s with calls := s.calls ++ [PrivateCall.say text] }
  stop s := { s with calls := s.calls ++ [PrivateCall.stop] }
  pause s := { s with calls := s.calls ++ [PrivateCall.pause] }
  resume s := { s with calls := s.calls ++ [PrivateCall.resume] }
  setPitch s p := { s with m_pitch := p, calls := s.calls ++ [PrivateCall.setPitch p] }
  pitch s := s.m_pitch
  setRate s r := { s with m_rate := r, calls := s.calls ++ [PrivateCall.setRate r] }
  rate s := s.m_rate
  setVolume s v := { s with m_volume := v, calls := s.calls ++ [PrivateCall.setVolume v] }
  volume s := s.m_volume
  setLocale s l := { s with m_locale := l, calls := s.calls ++ [PrivateCall.setLocale l] }
  locale s := s.m_locale
  availableLocales s := [s.m_locale]
  setVoice s v := { s with m_voice := v, calls := s.calls ++ [PrivateCall.setVoice v] }
  voice s := s.m_voice
  availableVoices s := [s.m_voice]

/-- A new façade object over the recording private implementation: the
private object is built by the constructor for the façade at address 1, no
call logged yet, pitch and rate 0, volume 50, locale and voice named. -/
def freshRecorded : QTextToSpeech (Recorded String String) :=
  { d_ptr :=
      { toQTextToSpeechPrivate := QTextToSpeechPrivate.QTextToSpeechPrivate 1
        calls := []
        m_pitch := 0
        m_rate := 0
        m_volume := 50
        m_locale := "en_US"
        m_voice := "default" } }

/-- The clamp of pitch and rate in the words of the specification (§3, §8):
`-1.0` when `p < -1.0`, `1.0` when `p > 1.0`, and `p` otherwise. It is not
in the source; it is what the source is compared with. -/
def specClampUnit (p : double) : double :=
  if p < -1 then -1 else if p > 1 then 1 else p

/-! ## The private implementation as the specification describes it

The bodies of `QTextToSpeechPrivate::state`, `say`, `stop`, `pause` and
`resume` are in the platform back ends. What they do is taken from the
specification: the data model of §3 and the transition table of §4.3. -/

/-- Modelled from the spec: `SpeechParameters` of §3 (pitch, rate, volume,
locale and an optional voice); the source has no such record. -/
structure SpeechParameters (L V : Type) where
  pitch : double
  rate : double
  volume : Int
  locale : L
  voice : Option V
  deriving DecidableEq, Repr

/-- Modelled from the spec: `Utterance` of §3, the text and the snapshot of
the parameters taken when `say` is accepted (the queued-at time stamp is left
out); the source has no such record. -/
structure Utterance (L V : Type) where
  text : String
  parameters : SpeechParameters L V
  deriving DecidableEq, Repr

/-- Modelled from the spec: what the state machine asks of the back end
adapter (§4.1: `speak`, `stop`, `pause`, `resume`); the adapter interface is
missing from the source. -/
inductive BackendRequest (L V : Type) where
  | speak (text : String) (parameters : SpeechParameters L V)
  | stop
  | pause
  | resume
  deriving DecidableEq, Repr

/-- Modelled from the spec: the `stateChanged(State)` notification of §4.5;
the signal declaration is missing from the source. -/
inductive Notification where
  | stateChanged (state : QTextToSpeech.State)
  deriving DecidableEq, Repr

/-- Modelled from the spec: the private object as §3 and §4.3 describe it.
Besides the two members the constructor initialises it holds the current
parameters, zero or one utterance, the requests sent to the back end so far
and the notifications published so far (both oldest first). The members
other than `m_speech` and `m_state` are missing from the source. -/
structure Machine (L V : Type) extends QTextToSpeechPrivate where
  parameters : SpeechParameters L V
  utterance : Option (Utterance L V)
  requests : List (BackendRequest L V)
  notifications : List Notification
  deriving DecidableEq, Repr

/-- Modelled from the spec: the body of `QTextToSpeechPrivate::state`, which
is missing from the source; it reads the current `EngineState` (§3). -/
def Machine.state {L V : Type} (m : Machine L V) : QTextToSpeech.State :=
  m.m_state

/-- Modelled from the spec: entering a state publishes `stateChanged` only
when the new state differs from the old one (§4.5); the code that emits the
signal is missing from the source. -/
def Machine.enter {L V : Type} (m : Machine L V) (s : QTextToSpeech.State) : Machine L V :=
  if m.m_state = s then m
  else { m with m_state := s, notifications := m.notifications ++ [Notification.stateChanged s] }

/-- Modelled from the spec: the body of `QTextToSpeechPrivate::say`, which is
missing from the source. §4.3: from `Ready`, and from `BackendError`, create
the utterance with a snapshot of the parameters, dispatch it to the back end
and go to `Speaking`. For `say` while `Speaking` or `Paused` the
specification leaves the policy open (reject or replace, §9); the call is
rejected here, and nothing below depends on that choice. -/
def Machine.say {L V : Type} (m : Machine L V) (text : String) : Machine L V :=
  match m.m_state with
  | QTextToSpeech.State.Ready | QTextToSpeech.State.BackendError =>
      Machine.enter
        { m with
          utterance := some { text := text, parameters := m.parameters }
          requests := m.requests ++ [BackendRequest.speak text m.parameters] }
        QTextToSpeech.State.Speaking
  | QTextToSpeech.State.Speaking | QTextToSpeech.State.Paused => m

/-- Modelled from the spec: the body of `QTextToSpeechPrivate::stop`, which is
missing from the source. §4.3: from `Speaking`, cancel the back end playback,
destroy the utterance and go to `Ready`; from `Paused`, destroy the utterance
and go to `Ready`; in a state with no `stop` edge (`Ready`, `BackendError`)
the call is a no-op. -/
def Machine.stop {L V : Type} (m : Machine L V) : Machine L V :=
  match m.m_state with
  | QTextToSpeech.State.Speaking =>
      Machine.enter
        { m with utterance := none, requests := m.requests ++ [BackendRequest.stop] }
        QTextToSpeech.State.Ready
  | QTextToSpeech.State.Paused =>
      Machine.enter { m with utterance := none } QTextToSpeech.State.Ready
  | QTextToSpeech.State.Ready | QTextToSpeech.State.BackendError => m

/-- Modelled from the spec: the body of `QTextToSpeechPrivate::pause`, which
is missing from the source. §4.3: from `Speaking`, pause the back end and go
to `Paused`; a no-op in every other state. -/
def Machine.pause {L V : Type} (m : Machine L V) : Machine L V :=
  match m.m_state with
  | QTextToSpeech.State.Speaking =>
      Machine.enter { m with requests := m.requests ++ [BackendRequest.pause] }
        QTextToSpeech.State.Paused
  | _ => m

/-- Modelled from the spec: the body of `QTextToSpeechPrivate::resume`, which
is missing from the source. §4.3: from `Paused`, resume the back end and go
to `Speaking`; a no-op in every other state. -/
def Machine.resume {L V : Type} (m : Machine L V) : Machine L V :=
  match m.m_state with
  | QTextToSpeech.State.Paused =>
      Machine.enter { m with requests := m.requests ++ [BackendRequest.resume] }
        QTextToSpeech.State.Speaking
  | _ => m

/-- Modelled from the spec: the private implementation whose control methods
are the state machine of §4.3. The methods for parameters, locales and voices
are not modelled: they are taken from `rest`, an arbitrary table over the
same private object. -/
def modelledPrivate {L V : Type} (rest : VTable L V (Machine L V)) :
    VTable L V (Machine L V) :=
  { rest with
    state := Machine.state
    say := Machine.say
    stop := Machine.stop
    pause := Machine.pause
    resume := Machine.resume }

/-- One table of parameter methods over `Machine`: a setter stores its
argument in the parameters, a getter reads it back. It serves as the `rest`
of `modelledPrivate` in concrete runs. -/
def storedParameters : VTable String String (Machine String String) where
  state m := m.m_state
  say m _ := m
  stop m := m
  pause m := m
  resume m := m
  setPitch m p := { m with parameters := { m.parameters with pitch := p } }
  pitch m := m.parameters.pitch
  setRate m r := { m with parameters := { m.parameters with rate := r } }
  rate m := m.parameters.rate
  setVolume m v := { m with parameters := { m.parameters with volume := v } }
  volume m := m.parameters.volume
  setLocale m l := { m with parameters := { m.parameters with locale := l } }
  locale m := m.parameters.locale
  availableLocales m := [m.parameters.locale]
  setVoice m v := { m with parameters := { m.parameters with voice := some v } }
  voice m := m.parameters.voice.getD "default"
  availableVoices m := m.parameters.voice.toList

/-- A new façade object over the modelled private implementation: the private
object is built by the constructor for the façade at address 1; no utterance,
no request sent, no notification published. -/
def freshMachine : QTextToSpeech (Machine String String) :=
  { d_ptr :=
      { toQTextToSpeechPrivate := QTextToSpeechPrivate.QTextToSpeechPrivate 1
        parameters := { pitch := 0, rate := 0, volume := 50, locale := "en_US", voice := none }
        utterance := none
        requests := []
        notifications := [] } }

/-! ## Helper lemmas -/

/-- The bound computed by `setVolume` is `max 0 (min 100 v)`. -/
theorem qMin_qMax_eq (v : Int) : qMin (qMax v 0) 100 = max 0 (min 100 v) := by
  unfold qMin qMax
  split_ifs <;> omega

/-- The bound computed by `setVolume` lies in `0 .. 100`. -/
theorem qMin_qMax_range (v : Int) : 0 ≤ qMin (qMax v 0) 100 ∧ qMin (qMax v 0) 100 ≤ 100 := by
  unfold qMin qMax
  split_ifs <;> omega

/-- The bound computed by `setVolume` is the input exactly on `0 .. 100`. -/
theorem qMin_qMax_eq_self_iff (v : Int) : qMin (qMax v 0) 100 = v ↔ 0 ≤ v ∧ v ≤ 100 := by
  unfold qMin qMax
  split_ifs <;> omega

/-- The specification's clamp of pitch and rate is the input exactly on
`-1 .. 1`. -/
theorem specClampUnit_eq_self_iff (p : double) : specClampUnit p = p ↔ -1 ≤ p ∧ p ≤ 1 := by
  unfold specClampUnit
  split_ifs with h1 h2
  · constructor
    · intro h; linarith
    · intro h; linarith
  · constructor
    · intro h; linarith
    · intro h; linarith
  · constructor
    · intro _; exact ⟨not_lt.mp h1, not_lt.mp h2⟩
    · intro _; rfl

/-! ## The claims -/

/-- C1: for every integer `v` and every private implementation that stores
the value handed to `setVolume` and returns it from `volume`, `setVolume(v)`
followed by `volume()` returns `max(0, min(100, v))`; in particular
`setVolume(150)` gives 100 and `setVolume(-5)` gives 0. -/
theorem setVolume_then_volume {L V σ : Type} (d : VTable L V σ)
    (hstore : ∀ (s : σ) (w : Int), d.volume (d.setVolume s w) = w)
    (self : QTextToSpeech σ) (v : Int) :
    QTextToSpeech.volume d (QTextToSpeech.setVolume d self v) = max 0 (min 100 v)
      ∧ QTextToSpeech.volume d (QTextToSpeech.setVolume d self 150) = 100
      ∧ QTextToSpeech.volume d (QTextToSpeech.setVolume d self (-5)) = 0 := by
  have key : ∀ u : Int,
      QTextToSpeech.volume d (QTextToSpeech.setVolume d self u) = max 0 (min 100 u) := by
    intro u
    simp only [QTextToSpeech.volume, QTextToSpeech.setVolume, hstore]
    exact qMin_qMax_eq u
  refine ⟨key v, ?_, ?_⟩
  · rw [key]; decide
  · rw [key]; decide

/-- C1 at a concrete input: the recording private implementation stores what
it is handed, and on a new object `setVolume(250)` followed by `volume()`
returns 100. -/
theorem setVolume_then_volume_witness :
    (∀ (s : Recorded String String) (w : Int),
        (recordingPrivate String String).volume
          ((recordingPrivate String String).setVolume s w) = w)
      ∧ QTextToSpeech.volume (recordingPrivate String String)
          (QTextToSpeech.setVolume (recordingPrivate String String) freshRecorded 250) = 100 :=
  ⟨fun _ _ => rfl,
    (setVolume_then_volume (recordingPrivate String String) (fun _ _ => rfl)
      freshRecorded 250).1.trans (by decide)⟩

/-- C2, as stated, fails: `setPitch(2.0)` on a new object hands the private
implementation 2.0, which `pitch()` then returns, and not the clamped value
1.0. -/
theorem setPitch_not_clamped :
    (QTextToSpeech.setPitch (recordingPrivate String String) freshRecorded 2).d_ptr.calls
        = [PrivateCall.setPitch 2]
      ∧ QTextToSpeech.pitch (recordingPrivate String String)
          (QTextToSpeech.setPitch (recordingPrivate String String) freshRecorded 2) = 2
      ∧ specClampUnit 2 = 1
      ∧ (QTextToSpeech.setPitch (recordingPrivate String String) freshRecorded 2).d_ptr.calls
        ≠ [PrivateCall.setPitch (specClampUnit 2)] := by
  refine ⟨by decide, by decide, by decide, by decide⟩

/-- C2 amended: for every pitch or rate input `p`, `setPitch(p)` (respectively
`setRate(p)`) hands the private implementation `p` itself, whatever the
private implementation is, and `pitch()` (respectively `rate()`) returns what
the private implementation returns; the value handed on is `p` clamped to
`[-1.0, 1.0]` exactly when `-1.0 <= p <= 1.0`. -/
theorem setPitch_setRate_forward (p : double) :
    (∀ (L V σ : Type) (d : VTable L V σ) (self : QTextToSpeech σ),
        QTextToSpeech.setPitch d self p = { d_ptr := d.setPitch self.d_ptr p }
          ∧ QTextToSpeech.setRate d self p = { d_ptr := d.setRate self.d_ptr p }
          ∧ QTextToSpeech.pitch d self = d.pitch self.d_ptr
          ∧ QTextToSpeech.rate d self = d.rate self.d_ptr)
      ∧ ((QTextToSpeech.setPitch (recordingPrivate String String) freshRecorded p).d_ptr.calls
            = [PrivateCall.setPitch (specClampUnit p)] ↔ -1 ≤ p ∧ p ≤ 1)
      ∧ ((QTextToSpeech.setRate (recordingPrivate String String) freshRecorded p).d_ptr.calls
            = [PrivateCall.setRate (specClampUnit p)] ↔ -1 ≤ p ∧ p ≤ 1) := by
  refine ⟨fun L V σ d self => ⟨rfl, rfl, rfl, rfl⟩, ?_, ?_⟩
  · rw [← specClampUnit_eq_self_iff]
    simp [QTextToSpeech.setPitch, recordingPrivate, freshRecorded, eq_comm]
  · rw [← specClampUnit_eq_self_iff]
    simp [QTextToSpeech.setRate, recordingPrivate, freshRecorded, eq_comm]

/-- C3, as stated, fails for `setVolume`: on a new object `setVolume(150)`
hands the private implementation 100, not the 150 it received, and the
façade call differs from calling the private implementation directly. -/
theorem setVolume_not_pure_delegation :
    (QTextToSpeech.setVolume (recordingPrivate String String) freshRecorded 150).d_ptr.calls
        = [PrivateCall.setVolume 100]
      ∧ ((recordingPrivate String String).setVolume freshRecorded.d_ptr 150).calls
        = [PrivateCall.setVolume 150]
      ∧ QTextToSpeech.setVolume (recordingPrivate String String) freshRecorded 150
        ≠ { d_ptr := (recordingPrivate String String).setVolume freshRecorded.d_ptr 150 } := by
  refine ⟨by decide, by decide, by decide⟩

/-- C3 amended: every public method of `QTextToSpeech` other than `setVolume`
is a pure delegation: it hands the private implementation exactly the
argument it received and returns exactly what the private implementation
returned; `setVolume(v)` hands the private implementation
`qMin(qMax(v, 0), 100)` in place of `v`, and is a pure delegation exactly for
`0 <= v <= 100` (as seen on the recording private implementation). -/
theorem facade_delegates {L V σ : Type} (d : VTable L V σ) (self : QTextToSpeech σ)
    (text : String) (p r : double) (v : Int) (locale : L) (voice : V) :
    QTextToSpeech.state d self = d.state self.d_ptr
      ∧ QTextToSpeech.say d self text = { d_ptr := d.say self.d_ptr text }
      ∧ QTextToSpeech.stop d self = { d_ptr := d.stop self.d_ptr }
      ∧ QTextToSpeech.pause d self = { d_ptr := d.pause self.d_ptr }
      ∧ QTextToSpeech.resume d self = { d_ptr := d.resume self.d_ptr }
      ∧ QTextToSpeech.setPitch d self p = { d_ptr := d.setPitch self.d_ptr p }
      ∧ QTextToSpeech.pitch d self = d.pitch self.d_ptr
      ∧ QTextToSpeech.setRate d self r = { d_ptr := d.setRate self.d_ptr r }
      ∧ QTextToSpeech.rate d self = d.rate self.d_ptr
      ∧ QTextToSpeech.volume d self = d.volume self.d_ptr
      ∧ QTextToSpeech.setLocale d self locale = { d_ptr := d.setLocale self.d_ptr locale }
      ∧ QTextToSpeech.locale d self = d.locale self.d_ptr
      ∧ QTextToSpeech.availableLocales d self = d.availableLocales self.d_ptr
      ∧ QTextToSpeech.setVoice d self voice = { d_ptr := d.setVoice self.d_ptr voice }
      ∧ QTextToSpeech.voice d self = d.voice self.d_ptr
      ∧ QTextToSpeech.availableVoices d self = d.availableVoices self.d_ptr
      ∧ QTextToSpeech.setVolume d self v
          = { d_ptr := d.setVolume self.d_ptr (qMin (qMax v 0) 100) }
      ∧ (QTextToSpeech.setVolume (recordingPrivate String String) freshRecorded v
            = { d_ptr := (recordingPrivate String String).setVolume freshRecorded.d_ptr v }
          ↔ 0 ≤ v ∧ v ≤ 100) := by
  refine ⟨rfl, rfl, rfl, rfl, rfl, rfl, rfl, rfl, rfl, rfl, rfl, rfl, rfl, rfl, rfl, rfl, rfl, ?_⟩
  rw [← qMin_qMax_eq_self_iff]
  simp [QTextToSpeech.setVolume, recordingPrivate, freshRecorded]

/-- C4, as stated, fails for pitch and rate: on a new object `setRate(-3.0)`
hands the private implementation -3.0, not the nearest bound -1.0. -/
theorem setRate_out_of_range_kept :
    (QTextToSpeech.setRate (recordingPrivate String String) freshRecorded (-3)).d_ptr.calls
        = [PrivateCall.setRate (-3)]
      ∧ specClampUnit (-3) = -1
      ∧ (QTextToSpeech.setRate (recordingPrivate String String) freshRecorded (-3)).d_ptr.calls
        ≠ [PrivateCall.setRate (specClampUnit (-3))] := by
  refine ⟨by decide, by decide, by decide⟩

/-- C4 amended: the setters `setPitch`, `setRate` and `setVolume` never fail:
each is a total function with no error result, which for every input leaves
the object the private setter leaves when handed one value. `setVolume(v)`
hands on the nearest bound of `[0, 100]` (0 below, 100 above, `v` inside);
`setPitch(p)` and `setRate(r)` hand on the input unchanged, also when it is
out of range. -/
theorem setters_total {L V σ : Type} (d : VTable L V σ) (self : QTextToSpeech σ)
    (p r : double) (v : Int) :
    QTextToSpeech.setPitch d self p = { d_ptr := d.setPitch self.d_ptr p }
      ∧ QTextToSpeech.setRate d self r = { d_ptr := d.setRate self.d_ptr r }
      ∧ ∃ w : Int,
          QTextToSpeech.setVolume d self v = { d_ptr := d.setVolume self.d_ptr w }
            ∧ w = (if v < 0 then 0 else if 100 < v then 100 else v)
            ∧ 0 ≤ w ∧ w ≤ 100 := by
  refine ⟨rfl, rfl, qMin (qMax v 0) 100, rfl, ?_, qMin_qMax_range v⟩
  unfold qMin qMax
  split_ifs <;> omega

/-- C5 (against the private implementation modelled from the specification):
`stop()` called while `state()` is `Ready` is a no-op: the state stays
`Ready`, no notification is published, nothing is requested of the back end,
and the object as a whole is unchanged. -/
theorem stop_when_ready_noop {L V : Type} (rest : VTable L V (Machine L V))
    (self : QTextToSpeech (Machine L V))
    (hready : QTextToSpeech.state (modelledPrivate rest) self = QTextToSpeech.State.Ready) :
    QTextToSpeech.state (modelledPrivate rest) (QTextToSpeech.stop (modelledPrivate rest) self)
        = QTextToSpeech.State.Ready
      ∧ (QTextToSpeech.stop (modelledPrivate rest) self).d_ptr.notifications
        = self.d_ptr.notifications
      ∧ (QTextToSpeech.stop (modelledPrivate rest) self).d_ptr.requests
        = self.d_ptr.requests
      ∧ QTextToSpeech.stop (modelledPrivate rest) self = self := by
  have hs : self.d_ptr.m_state = QTextToSpeech.State.Ready := hready
  have hstop : QTextToSpeech.stop (modelledPrivate rest) self = self := by
    simp [QTextToSpeech.stop, modelledPrivate, Machine.stop, hs]
  rw [hstop]
  exact ⟨hready, rfl, rfl, rfl⟩

/-- C5 at a concrete input: a new object is `Ready`, and `stop()` leaves it as
it is. -/
theorem stop_when_ready_noop_witness :
    QTextToSpeech.state (modelledPrivate storedParameters) freshMachine
        = QTextToSpeech.State.Ready
      ∧ QTextToSpeech.stop (modelledPrivate storedParameters) freshMachine = freshMachine :=
  ⟨by decide, (stop_when_ready_noop storedParameters freshMachine (by decide)).2.2.2⟩

/-- C6 (against the private implementation modelled from the specification):
for every text, `say(text)` called while `state()` is `Ready` leaves `state()`
equal to `Speaking` when it returns; no completion of the back end takes part
in the call. -/
theorem say_when_ready_speaking {L V : Type} (rest : VTable L V (Machine L V))
    (self : QTextToSpeech (Machine L V)) (text : String)
    (hready : QTextToSpeech.state (modelledPrivate rest) self = QTextToSpeech.State.Ready) :
    QTextToSpeech.state (modelledPrivate rest)
        (QTextToSpeech.say (modelledPrivate rest) self text)
      = QTextToSpeech.State.Speaking := by
  have hs : self.d_ptr.m_state = QTextToSpeech.State.Ready := hready
  simp [QTextToSpeech.state, QTextToSpeech.say, modelledPrivate, Machine.state, Machine.say,
    Machine.enter, hs]

/-- C6 at a concrete input: a new object is `Ready`, and after `say("hello")`
its state is `Speaking`. -/
theorem say_when_ready_speaking_witness :
    QTextToSpeech.state (modelledPrivate storedParameters) freshMachine
        = QTextToSpeech.State.Ready
      ∧ QTextToSpeech.state (modelledPrivate storedParameters)
          (QTextToSpeech.say (modelledPrivate storedParameters) freshMachine "hello")
        = QTextToSpeech.State.Speaking :=
  ⟨by decide, say_when_ready_speaking storedParameters freshMachine "hello" (by decide)⟩

/-- C7: a private object built by the constructor has `m_state` equal to
`Ready` and `m_speech` equal to the pointer it was given; its state is none
of `Speaking`, `Paused`, `BackendError`. -/
theorem constructor_ready (speech : Nat) :
    (QTextToSpeechPrivate.QTextToSpeechPrivate speech).m_state = QTextToSpeech.State.Ready
      ∧ (QTextToSpeechPrivate.QTextToSpeechPrivate speech).m_speech = speech
      ∧ (QTextToSpeechPrivate.QTextToSpeechPrivate speech).m_state
          ≠ QTextToSpeech.State.Speaking
      ∧ (QTextToSpeechPrivate.QTextToSpeechPrivate speech).m_state
          ≠ QTextToSpeech.State.Paused
      ∧ (QTextToSpeechPrivate.QTextToSpeechPrivate speech).m_state
          ≠ QTextToSpeech.State.BackendError := by
  refine ⟨rfl, rfl, ?_, ?_, ?_⟩ <;> simp [QTextToSpeechPrivate.QTextToSpeechPrivate]

/-- C8: for every integer `v` there is one value `w` that `setVolume(v)` hands
to the private implementation, whatever the private implementation is; `w`
lies in `[0, 100]`, `w` equals `v` exactly when `0 <= v <= 100`, and
`setVolume(w)` hands on `w` again. -/
theorem setVolume_clamp_idempotent (v : Int) :
    ∃ w : Int,
      (∀ (L V σ : Type) (d : VTable L V σ) (self : QTextToSpeech σ),
          QTextToSpeech.setVolume d self v = { d_ptr := d.setVolume self.d_ptr w })
        ∧ 0 ≤ w ∧ w ≤ 100
        ∧ (w = v ↔ 0 ≤ v ∧ v ≤ 100)
        ∧ (∀ (L V σ : Type) (d : VTable L V σ) (self : QTextToSpeech σ),
            QTextToSpeech.setVolume d self w = { d_ptr := d.setVolume self.d_ptr w })
        ∧ (QTextToSpeech.setVolume (recordingPrivate String String) freshRecorded v).d_ptr.calls
            = [PrivateCall.setVolume w] := by
  refine ⟨qMin (qMax v 0) 100, fun _ _ _ _ _ => rfl, (qMin_qMax_range v).1,
    (qMin_qMax_range v).2, qMin_qMax_eq_self_iff v, ?_, rfl⟩
  intro L V σ d self
  have hw : qMin (qMax (qMin (qMax v 0) 100) 0) 100 = qMin (qMax v 0) 100 :=
    (qMin_qMax_eq_self_iff _).2 (qMin_qMax_range v)
  simp only [QTextToSpeech.setVolume, hw]

end QtSpeech
